import Mathlib

/-!
Verification of the physics computation layer of the EM-Wave-Visual
repository (`em_visualizer_complete.py`).

The Python source computes closed-form electromagnetic-wave quantities
(Snell's law, Fresnel coefficients, relativistic Doppler shift, dipole
radiation resistance, waveguide cutoff/dispersion) per request and packages
them into a configuration object.  Floating-point arithmetic is modelled by
real arithmetic; Python exceptions (`KeyError`, `ValueError`, `IndexError`)
are modelled with `Except`.
-/

open Real

/-! ## Physical constants (module-level constants of the source) -/

/-- `SPEED_OF_LIGHT = 299792458.0` (m/s, exact). -/
def SPEED_OF_LIGHT : ℝ := 299792458

/-- `VACUUM_PERMITTIVITY = 8.854187817e-12` (F/m). -/
noncomputable def VACUUM_PERMITTIVITY : ℝ := 8854187817 / 10 ^ 21

/-- `VACUUM_PERMEABILITY = 1.25663706212e-6` (H/m). -/
noncomputable def VACUUM_PERMEABILITY : ℝ := 125663706212 / 10 ^ 17

/-- `VACUUM_IMPEDANCE = 376.730313668` (Ohms). -/
noncomputable def VACUUM_IMPEDANCE : ℝ := 376730313668 / 10 ^ 9

/-- `np.radians(x) = x * pi / 180`. -/
noncomputable def radians (x : ℝ) : ℝ := x * π / 180

/-- `np.degrees(x) = x * 180 / pi`. -/
noncomputable def degrees (x : ℝ) : ℝ := x * 180 / π

/-! ## Dataclasses `WaveParameters` and `MediumProperties` -/

/-- The `WaveParameters` dataclass: frequency (Hz) and amplitude (V/m). -/
structure WaveParameters where
  frequency : ℝ
  amplitude : ℝ

/-- Property `wavelength`: `λ = c / f`. -/
noncomputable def WaveParameters.wavelength (w : WaveParameters) : ℝ :=
  SPEED_OF_LIGHT / w.frequency

/-- Property `wave_number`: `k = 2π / λ`. -/
noncomputable def WaveParameters.wave_number (w : WaveParameters) : ℝ :=
  2 * π / w.wavelength

/-- Property `angular_frequency`: `ω = 2πf`. -/
noncomputable def WaveParameters.angular_frequency (w : WaveParameters) : ℝ :=
  2 * π * w.frequency

/-- Property `period`: `T = 1 / f`. -/
noncomputable def WaveParameters.period (w : WaveParameters) : ℝ :=
  1 / w.frequency

/-- The `MediumProperties` dataclass.  Defaults in the source:
`relative_permeability = 1.0`, `conductivity = 0.0`. -/
structure MediumProperties where
  name : String
  relative_permittivity : ℝ
  relative_permeability : ℝ := 1
  conductivity : ℝ := 0

/-- Property `refractive_index`: `n = sqrt(εr * μr)`. -/
noncomputable def MediumProperties.refractive_index (m : MediumProperties) : ℝ :=
  Real.sqrt (m.relative_permittivity * m.relative_permeability)

/-- Property `wave_speed`: `v = c / n`. -/
noncomputable def MediumProperties.wave_speed (m : MediumProperties) : ℝ :=
  SPEED_OF_LIGHT / m.refractive_index

/-- Property `impedance`: `Z = Z0 * sqrt(μr / εr)`. -/
noncomputable def MediumProperties.impedance (m : MediumProperties) : ℝ :=
  VACUUM_IMPEDANCE * Real.sqrt (m.relative_permeability / m.relative_permittivity)

/-! ## The request object (`data` dictionary of a `/visualize` POST) -/

/-- The fields of the request dictionary that `visualize` and
`generate_configuration` read.  Fields read with `data.get(key, default)`
in the source are modelled as plain fields (the front end always sends
them). -/
structure Request where
  phenomenon : String
  frequency : ℝ
  amplitude : ℝ
  angle : ℝ
  medium1 : String
  medium2 : String
  velocity : ℝ
  dipole_length : ℝ
  current_dist : String
  guide_width : ℝ
  guide_height : ℝ
  mode : String
  guide_type : String

/-! ## Python exceptions -/

/-- The exceptions that the modelled code can raise: `KeyError` (failed
dict lookup), `ValueError` (validation and `int()` parse failures),
`IndexError` (string index out of range). -/
inductive EmError where
  | keyError (key : String)
  | valueError (msg : String)
  | indexError


/-- `str(e)` for the modelled exceptions:  Python renders
`str(KeyError('x'))` as `"'x'"`, `str(ValueError(m))` as `m`, and the
`IndexError` raised by string subscripting as
`"string index out of range"`. -/
def EmError.message : EmError → String
  | .keyError k => "\x27" ++ k ++ "\x27"
  | .valueError m => m
  | .indexError => "string index out of range"

/-! ## Output configuration object -/

/-- The `config["physics"]["wave"]` sub-dictionary. -/
structure WaveOut where
  frequency : ℝ
  amplitude : ℝ
  wavelength : ℝ
  period : ℝ
  angular_frequency : ℝ
  wave_number : ℝ


/-- The `config["physics"]["constants"]` sub-dictionary. -/
structure ConstantsOut where
  speed_of_light : ℝ
  vacuum_permittivity : ℝ
  vacuum_permeability : ℝ
  vacuum_impedance : ℝ


/-- One entry of the `config["physics"]["media"]` list. -/
structure MediumOut where
  name : String
  relative_permittivity : ℝ
  relative_permeability : ℝ
  refractive_index : ℝ
  wave_speed : ℝ
  impedance : ℝ


/-- The `fresnel_coefficients` dictionary of the normal-refraction branch:
keys `r_te, t_te, r_tm, t_tm, R_te, T_te`. -/
structure FresnelOut where
  r_te : ℝ
  t_te : ℝ
  r_tm : ℝ
  t_tm : ℝ
  R_te : ℝ
  T_te : ℝ


/-- The `fresnel_coefficients` dictionary of the total-internal-reflection
branch: keys `r_te, r_tm, R_te, R_tm` (all set to `1.0`). -/
structure TirCoefficientsOut where
  r_te : ℝ
  r_tm : ℝ
  R_te : ℝ
  R_tm : ℝ


/-- The reflection-specific physics entries: either the normal-refraction
branch (`total_internal_reflection = False`, transmitted angle and full
Fresnel coefficients) or the total-internal-reflection branch
(`total_internal_reflection = True`, critical angle). -/
inductive ReflectionPhysics where
  | refraction (transmitted_angle_deg transmitted_angle_rad : ℝ)
      (fresnel_coefficients : FresnelOut)
  | totalReflection (critical_angle_deg : ℝ)
      (fresnel_coefficients : TirCoefficientsOut)


/-- The `config["physics"]["total_internal_reflection"]` boolean. -/
def ReflectionPhysics.total_internal_reflection : ReflectionPhysics → Bool
  | .refraction _ _ _ => false
  | .totalReflection _ _ => true

/-- The `config["physics"]["doppler"]` dictionary: either the sub-luminal
result or the error entry for `|beta| >= 1`. -/
inductive DopplerPhysics where
  | ok (source_velocity beta observed_frequency frequency_shift relative_shift : ℝ)
  | superluminal (source_velocity : ℝ) (msg : String)


/-- The `config["physics"]["dipole"]` dictionary. -/
structure DipolePhysics where
  length : ℝ
  length_wavelengths : ℝ
  current_distribution : String
  radiation_resistance : ℝ


/-- The `config["physics"]["waveguide"]` dictionary: the propagating branch
(`frequency > fc`) or the evanescent branch.  `np.inf` (the impedance below
cutoff) is modelled by `⊤ : EReal`. -/
inductive WaveguidePhysics where
  | propagating (guide_type : String) (width height : ℝ) (mode mode_type : String)
      (m n : ℕ) (cutoff_frequency cutoff_wavelength propagation_constant
      guide_wavelength phase_velocity group_velocity : ℝ) (impedance : EReal)
  | evanescent (guide_type : String) (width height : ℝ) (mode : String)
      (cutoff_frequency attenuation_constant : ℝ)


/-- Whether the waveguide dictionary describes a propagating mode. -/
def WaveguidePhysics.isPropagating : WaveguidePhysics → Bool
  | .propagating _ _ _ _ _ _ _ _ _ _ _ _ _ _ => true
  | .evanescent _ _ _ _ _ _ => false

/-- The cutoff frequency stored in the waveguide dictionary (both
branches store it under the key `cutoff_frequency`). -/
def WaveguidePhysics.cutoff_frequency : WaveguidePhysics → ℝ
  | .propagating _ _ _ _ _ _ _ fc _ _ _ _ _ _ => fc
  | .evanescent _ _ _ _ fc _ => fc

/-- The phenomenon-specific part of the configuration (absent for
phenomena without a dedicated branch in `generate_configuration`). -/
inductive PhenomenonExtra where
  | base
  | reflection (media : List MediumOut) (incident_angle_deg incident_angle_rad : ℝ)
      (physics : ReflectionPhysics)
  | doppler (physics : DopplerPhysics)
  | dipole (physics : DipolePhysics)
  | waveguide (physics : WaveguidePhysics)


/-- The configuration object returned by `generate_configuration`. -/
structure Config where
  version : String
  phenomenon : String
  wave : WaveOut
  constants : ConstantsOut
  extra : PhenomenonExtra


/-! ## The physics computations of `generate_configuration` -/

/-- The `materials` dictionary of the reflection branch.  A key outside
`Air`, `Water`, `Glass`, `Diamond` raises `KeyError`, modelled by `none`. -/
noncomputable def materials (key : String) : Option MediumProperties :=
  if key = "Air" then some { name := "Air", relative_permittivity := 100059 / 10 ^ 5 }
  else if key = "Water" then some { name := "Water", relative_permittivity := 80 }
  else if key = "Glass" then some { name := "Glass", relative_permittivity := 225 / 10 ^ 2 }
  else if key = "Diamond" then some { name := "Diamond", relative_permittivity := 584 / 10 ^ 2 }
  else none

/-- The `config["physics"]["media"]` entry built from a `MediumProperties`. -/
noncomputable def mediumOut (m : MediumProperties) : MediumOut :=
  { name := m.name
    relative_permittivity := m.relative_permittivity
    relative_permeability := m.relative_permeability
    refractive_index := m.refractive_index
    wave_speed := m.wave_speed
    impedance := m.impedance }

/-- The reflection computation of `generate_configuration` (lines 952-1003):
Snell's law `sin_theta_t = n1*sin(theta_i)/n2`; if `sin_theta_t <= 1.0` the
normal-refraction branch computes the transmitted angle and the Fresnel
coefficients, otherwise the total-internal-reflection branch reports the
critical angle and unit reflection coefficients.  `theta_i` is in radians. -/
noncomputable def reflectionPhysics (n1 n2 theta_i : ℝ) : ReflectionPhysics :=
  let sin_theta_t := n1 * Real.sin theta_i / n2
  if sin_theta_t ≤ 1 then
    let theta_t := Real.arcsin sin_theta_t
    let cos_theta_i := Real.cos theta_i
    let cos_theta_t := Real.cos theta_t
    let r_te := (n1 * cos_theta_i - n2 * cos_theta_t) / (n1 * cos_theta_i + n2 * cos_theta_t)
    let t_te := (2 * n1 * cos_theta_i) / (n1 * cos_theta_i + n2 * cos_theta_t)
    let r_tm := (n2 * cos_theta_i - n1 * cos_theta_t) / (n2 * cos_theta_i + n1 * cos_theta_t)
    let t_tm := (2 * n1 * cos_theta_i) / (n2 * cos_theta_i + n1 * cos_theta_t)
    let R_te := r_te ^ 2
    let T_te := (n2 * cos_theta_t) / (n1 * cos_theta_i) * t_te ^ 2
    .refraction (degrees theta_t) theta_t
      { r_te := r_te, t_te := t_te, r_tm := r_tm, t_tm := t_tm, R_te := R_te, T_te := T_te }
  else
    .totalReflection (degrees (Real.arcsin (n2 / n1)))
      { r_te := 1, r_tm := 1, R_te := 1, R_tm := 1 }

/-- The Doppler computation of `generate_configuration` (lines 1005-1029):
relativistic Doppler shift with separate branches for an approaching
(`v > 0`) and a receding (`v <= 0`) source, and an error entry when
`|beta| >= 1`. -/
noncomputable def dopplerPhysics (freq v : ℝ) : DopplerPhysics :=
  let beta := v / SPEED_OF_LIGHT
  if |beta| < 1 then
    let f_observed :=
      if 0 < v then freq * Real.sqrt ((1 + beta) / (1 - beta))
      else freq * Real.sqrt ((1 - |beta|) / (1 + |beta|))
    .ok v beta f_observed (f_observed - freq) ((f_observed - freq) / freq)
  else
    .superluminal v "Velocity cannot exceed speed of light"

/-- `calculate_radiation_resistance(dipole_length, wavelength)`
(lines 1091-1105): short-dipole formula for `l/lambda <= 0.1`, the constant
`73.13` near the half-wave point (`|l/lambda - 0.5| < 0.01`), and the
approximate general formula `80*(pi*l/lambda)**2` otherwise. -/
noncomputable def calculate_radiation_resistance (dipole_length wavelength : ℝ) : ℝ :=
  let l_over_lambda := dipole_length / wavelength
  if l_over_lambda ≤ 1 / 10 then
    20 * (π * l_over_lambda) ^ 2
  else if |l_over_lambda - 5 / 10| < 1 / 100 then
    7313 / 100
  else
    80 * (π * l_over_lambda) ^ 2

/-- `calculate_waveguide_impedance(mode_type, frequency, fc)`
(lines 1107-1117): `np.inf` (modelled by `⊤ : EReal`) at or below cutoff,
otherwise the TE or TM wave impedance. -/
noncomputable def calculate_waveguide_impedance (mode_type : String) (frequency fc : ℝ) :
    EReal :=
  if frequency ≤ fc then ⊤
  else if mode_type = "TE" then
    ((VACUUM_IMPEDANCE / Real.sqrt (1 - (fc / frequency) ^ 2) : ℝ) : EReal)
  else
    ((VACUUM_IMPEDANCE * Real.sqrt (1 - (fc / frequency) ^ 2) : ℝ) : EReal)

/-- `int(mode[i])` on an optional character: `IndexError` when the string is
too short, `ValueError` when the character is not a digit. -/
def charToInt : Option Char → Except EmError ℕ
  | none => .error .indexError
  | some c =>
      if c.isDigit then .ok (c.toNat - 48)
      else .error (.valueError ("invalid literal for int() with base 10: " ++ String.mk [c]))

/-- The waveguide computation of `generate_configuration` (lines 1040-1087):
mode parsing (`mode[:2]`, `int(mode[2])`, `int(mode[3])`), cutoff frequency
`fc = c/(2π) * sqrt((mπ/a)² + (nπ/b)²)`, then the propagating branch when
`frequency > fc` and the evanescent branch otherwise. -/
noncomputable def waveguidePhysics (wave : WaveParameters) (guide_type : String)
    (a b : ℝ) (mode : String) : Except EmError WaveguidePhysics := do
  let mode_type := String.mk (mode.toList.take 2)
  let m ← charToInt (mode.toList.get? 2)
  let n ← charToInt (mode.toList.get? 3)
  let fc := SPEED_OF_LIGHT / (2 * π) *
    Real.sqrt ((m * π / a) ^ 2 + (n * π / b) ^ 2)
  if fc < wave.frequency then
    let beta_g := Real.sqrt ((wave.angular_frequency / SPEED_OF_LIGHT) ^ 2 -
      (2 * π * fc / SPEED_OF_LIGHT) ^ 2)
    let lambda_g := 2 * π / beta_g
    let vp := wave.angular_frequency / beta_g
    let vg := SPEED_OF_LIGHT ^ 2 / vp
    pure (.propagating guide_type a b mode mode_type m n fc (SPEED_OF_LIGHT / fc)
      beta_g lambda_g vp vg (calculate_waveguide_impedance mode_type wave.frequency fc))
  else
    let alpha := Real.sqrt ((2 * π * fc / SPEED_OF_LIGHT) ^ 2 -
      (wave.angular_frequency / SPEED_OF_LIGHT) ^ 2)
    pure (.evanescent guide_type a b mode fc alpha)

/-- `generate_configuration(data)` (lines 892-1089).  The base configuration
packages the wave parameters and constants; the `if/elif` chain on
`data['phenomenon']` adds the phenomenon-specific entries.  The `KeyError`
of an unknown material and the parse errors of the waveguide mode string
surface as `Except.error`. -/
noncomputable def generateConfiguration (data : Request) : Except EmError Config := do
  let wave : WaveParameters := { frequency := data.frequency, amplitude := data.amplitude }
  let waveOut : WaveOut :=
    { frequency := wave.frequency, amplitude := wave.amplitude
      wavelength := wave.wavelength, period := wave.period
      angular_frequency := wave.angular_frequency, wave_number := wave.wave_number }
  let constantsOut : ConstantsOut :=
    { speed_of_light := SPEED_OF_LIGHT, vacuum_permittivity := VACUUM_PERMITTIVITY
      vacuum_permeability := VACUUM_PERMEABILITY, vacuum_impedance := VACUUM_IMPEDANCE }
  let mkConfig : PhenomenonExtra → Config := fun extra =>
    { version := "1.0", phenomenon := data.phenomenon, wave := waveOut
      constants := constantsOut, extra := extra }
  if data.phenomenon = "reflection" then
    match materials data.medium1 with
    | none => .error (.keyError data.medium1)
    | some medium1 =>
      match materials data.medium2 with
      | none => .error (.keyError data.medium2)
      | some medium2 =>
        let theta_i := radians data.angle
        let n1 := medium1.refractive_index
        let n2 := medium2.refractive_index
        pure (mkConfig (.reflection [mediumOut medium1, mediumOut medium2]
          data.angle theta_i (reflectionPhysics n1 n2 theta_i)))
  else if data.phenomenon = "doppler" then
    pure (mkConfig (.doppler (dopplerPhysics wave.frequency data.velocity)))
  else if data.phenomenon = "dipole" then
    let dipole_length := data.dipole_length * wave.wavelength
    pure (mkConfig (.dipole
      { length := dipole_length
        length_wavelengths := data.dipole_length
        current_distribution := data.current_dist
        radiation_resistance := calculate_radiation_resistance dipole_length wave.wavelength }))
  else if data.phenomenon = "waveguide" then
    let w ← waveguidePhysics wave data.guide_type data.guide_width data.guide_height data.mode
    pure (mkConfig (.waveguide w))
  else
    pure (mkConfig .base)

/-! ## The `/visualize` handler -/

/-- The phenomena with a dedicated `create_*_visualization` branch in the
`if/elif` chain of `visualize` (lines 855-872). -/
def knownPhenomena : List String :=
  ["plane_wave", "standing_wave", "reflection", "interference", "doppler",
   "polarization", "dipole", "waveguide"]

/-- The response dictionary of `/visualize`: `success`, and `error` (failure)
or `config` (success; the image and description strings are rendering glue
and not modelled). -/
structure VisualizeResponse where
  success : Bool
  error : Option String
  config : Option Config

/-- The body of the `try` block of `visualize` (lines 842-880): validation of
`frequency` and `amplitude`, `generate_configuration`, then the dispatch on
`data['phenomenon']` whose final `else` raises
`ValueError(f"Unknown phenomenon: {...}")`.  The `create_*_visualization`
calls are rendering glue, modelled as succeeding. -/
noncomputable def visualizeBody (data : Request) : Except EmError Config := do
  if data.frequency ≤ 0 then
    .error (.valueError "Frequency must be positive")
  else if data.amplitude ≤ 0 then
    .error (.valueError "Amplitude must be positive")
  else
    let config ← generateConfiguration data
    if data.phenomenon ∈ knownPhenomena then
      pure config
    else
      .error (.valueError ("Unknown phenomenon: " ++ data.phenomenon))

/-- `visualize()` (lines 839-890): the whole body runs inside a single
`try/except Exception`; any raised exception is turned into the response
`{'success': False, 'error': str(e)}`. -/
noncomputable def visualize (data : Request) : VisualizeResponse :=
  match visualizeBody data with
  | .ok config => { success := true, error := none, config := some config }
  | .error e => { success := false, error := some e.message, config := none }

/-- The textbook radiation resistance of a full-wave dipole
(`l = 1.0·lambda`), about 199 ohms (induced-EMF method; e.g. Balanis,
Antenna Theory).  Used to compare the code's general-formula branch with
the textbook value it is claimed to match. -/
noncomputable def fullWaveDipoleTextbookResistance : ℝ := 1991 / 10

/-- A request with both `frequency <= 0` and `amplitude <= 0`. -/
noncomputable def doubleBadRequest : Request :=
  { phenomenon := "plane_wave", frequency := -1, amplitude := -1, angle := 0
    medium1 := "Air", medium2 := "Air", velocity := 0, dipole_length := 1 / 2
    current_dist := "uniform", guide_width := 1, guide_height := 1
    mode := "TE10", guide_type := "rectangular" }

/-- A batch of requests processed one after the other, as the Flask app
serves successive `/visualize` calls. -/
noncomputable def runBatch (reqs : List Request) : List (Except EmError Config) :=
  reqs.map generateConfiguration

/-! ## Helper lemmas -/

/-- Unfolding of the normal-refraction branch (`sin_theta_t <= 1.0`). -/
lemma reflectionPhysics_refraction_eq {n1 n2 theta_i : ℝ}
    (h : n1 * Real.sin theta_i / n2 ≤ 1) :
    reflectionPhysics n1 n2 theta_i =
      .refraction (degrees (Real.arcsin (n1 * Real.sin theta_i / n2)))
        (Real.arcsin (n1 * Real.sin theta_i / n2))
        { r_te := (n1 * Real.cos theta_i -
              n2 * Real.cos (Real.arcsin (n1 * Real.sin theta_i / n2))) /
              (n1 * Real.cos theta_i +
              n2 * Real.cos (Real.arcsin (n1 * Real.sin theta_i / n2)))
          t_te := (2 * n1 * Real.cos theta_i) /
              (n1 * Real.cos theta_i +
              n2 * Real.cos (Real.arcsin (n1 * Real.sin theta_i / n2)))
          r_tm := (n2 * Real.cos theta_i -
              n1 * Real.cos (Real.arcsin (n1 * Real.sin theta_i / n2))) /
              (n2 * Real.cos theta_i +
              n1 * Real.cos (Real.arcsin (n1 * Real.sin theta_i / n2)))
          t_tm := (2 * n1 * Real.cos theta_i) /
              (n2 * Real.cos theta_i +
              n1 * Real.cos (Real.arcsin (n1 * Real.sin theta_i / n2)))
          R_te := ((n1 * Real.cos theta_i -
              n2 * Real.cos (Real.arcsin (n1 * Real.sin theta_i / n2))) /
              (n1 * Real.cos theta_i +
              n2 * Real.cos (Real.arcsin (n1 * Real.sin theta_i / n2)))) ^ 2
          T_te := (n2 * Real.cos (Real.arcsin (n1 * Real.sin theta_i / n2))) /
              (n1 * Real.cos theta_i) *
              ((2 * n1 * Real.cos theta_i) /
              (n1 * Real.cos theta_i +
              n2 * Real.cos (Real.arcsin (n1 * Real.sin theta_i / n2)))) ^ 2 } := by
  simp only [reflectionPhysics, if_pos h]

/-- Unfolding of the total-internal-reflection branch (`sin_theta_t > 1.0`). -/
lemma reflectionPhysics_tir_eq {n1 n2 theta_i : ℝ}
    (h : 1 < n1 * Real.sin theta_i / n2) :
    reflectionPhysics n1 n2 theta_i =
      .totalReflection (degrees (Real.arcsin (n2 / n1)))
        { r_te := 1, r_tm := 1, R_te := 1, R_tm := 1 } := by
  simp only [reflectionPhysics, if_neg (not_le.mpr h)]

/-- For an incident angle `angle` in degrees in `[0, 90]`, the radian angle
`radians angle` lies in `[0, π/2]`. -/
lemma radians_mem_of_deg {angle : ℝ} (h0 : 0 ≤ angle) (h90 : angle ≤ 90) :
    0 ≤ radians angle ∧ radians angle ≤ π / 2 := by
  unfold radians
  constructor
  · positivity
  · rw [div_le_iff₀ (by norm_num : (0:ℝ) < 180)]
    have : π / 2 * 180 = 90 * π := by ring
    rw [this]
    exact mul_le_mul_of_nonneg_right h90 Real.pi_pos.le

/-! ## Claims -/

/-- Claim C1: for a reflection request with refractive indices `n1, n2 > 0`
and incident angle in `[0°, 90°]`, the configuration marks
`total_internal_reflection = true` iff `n1*sin(theta_i)/n2 > 1`; in the
refraction branch the reported transmitted angle satisfies Snell's law
`n1*sin(theta_i) = n2*sin(theta_t)`, and in the total-internal-reflection
branch the reported critical angle is `arcsin(n2/n1)` (in degrees). -/
theorem C1_snell_and_tir (n1 n2 angle : ℝ) (hn1 : 0 < n1) (hn2 : 0 < n2)
    (h0 : 0 ≤ angle) (h90 : angle ≤ 90) :
    ((reflectionPhysics n1 n2 (radians angle)).total_internal_reflection = true ↔
      1 < n1 * Real.sin (radians angle) / n2) ∧
    (∀ d t f, reflectionPhysics n1 n2 (radians angle) = .refraction d t f →
      n1 * Real.sin (radians angle) = n2 * Real.sin t) ∧
    (∀ ca f, reflectionPhysics n1 n2 (radians angle) = .totalReflection ca f →
      ca = degrees (Real.arcsin (n2 / n1))) := by
  obtain ⟨hθ0, hθ2⟩ := radians_mem_of_deg h0 h90
  set θ := radians angle with hθ
  have hsin : 0 ≤ Real.sin θ :=
    Real.sin_nonneg_of_nonneg_of_le_pi hθ0 (hθ2.trans (by linarith [Real.pi_pos]))
  have hs0 : 0 ≤ n1 * Real.sin θ / n2 := by positivity
  by_cases hs : n1 * Real.sin θ / n2 ≤ 1
  · rw [reflectionPhysics_refraction_eq hs]
    refine ⟨by simp [ReflectionPhysics.total_internal_reflection, not_lt.mpr hs], ?_, ?_⟩
    · intro d t f hf
      injection hf with hd ht hfres
      rw [← ht, Real.sin_arcsin (by linarith) hs]
      field_simp
    · intro ca f hf
      exact absurd hf (by simp)
  · push_neg at hs
    rw [reflectionPhysics_tir_eq hs]
    refine ⟨by simp [ReflectionPhysics.total_internal_reflection, hs], ?_, ?_⟩
    · intro d t f hf
      exact absurd hf (by simp)
    · intro ca f hf
      injection hf with hca _
      exact hca.symm

/-- Witness for C1 at `n1 = 2`, `n2 = 1`, `angle = 90°` (total internal
reflection: `sin_theta_t = 2 > 1`). -/
theorem C1_snell_and_tir_witness :
    (0:ℝ) < 2 ∧ (0:ℝ) < 1 ∧ (0:ℝ) ≤ 90 ∧ (90:ℝ) ≤ 90 ∧
    (((reflectionPhysics 2 1 (radians 90)).total_internal_reflection = true ↔
      1 < 2 * Real.sin (radians 90) / 1) ∧
    (∀ d t f, reflectionPhysics 2 1 (radians 90) = .refraction d t f →
      2 * Real.sin (radians 90) = 1 * Real.sin t) ∧
    (∀ ca f, reflectionPhysics 2 1 (radians 90) = .totalReflection ca f →
      ca = degrees (Real.arcsin (1 / 2)))) :=
  ⟨by norm_num, by norm_num, by norm_num, by norm_num,
    C1_snell_and_tir 2 1 90 (by norm_num) (by norm_num) (by norm_num) (by norm_num)⟩

/-- Claim C2: in the normal-refraction branch the reported TE power
coefficients conserve energy.  The coefficients reported in the
configuration satisfy `R_te = r_te²`,
`T_te = (n2·cos θt)/(n1·cos θi) · t_te²` with `θt` the reported transmitted
angle, and `R_te + T_te = 1`.  The hypothesis `theta_i < π/2` keeps the
denominator `n1·cos θi` of the claim's `T_te` formula nonzero. -/
theorem C2_te_energy_conservation (n1 n2 theta_i : ℝ) (hn1 : 0 < n1) (hn2 : 0 < n2)
    (h0 : 0 ≤ theta_i) (h90 : theta_i < π / 2)
    (d t : ℝ) (f : FresnelOut)
    (href : reflectionPhysics n1 n2 theta_i = .refraction d t f) :
    f.R_te = f.r_te ^ 2 ∧
    f.T_te = (n2 * Real.cos t) / (n1 * Real.cos theta_i) * f.t_te ^ 2 ∧
    f.R_te + f.T_te = 1 := by
  by_cases hs : n1 * Real.sin theta_i / n2 ≤ 1
  · rw [reflectionPhysics_refraction_eq hs] at href
    injection href with hd ht hf
    subst hf
    have hsin : 0 ≤ Real.sin theta_i :=
      Real.sin_nonneg_of_nonneg_of_le_pi h0 (by linarith [Real.pi_pos])
    have hci : 0 < Real.cos theta_i :=
      Real.cos_pos_of_mem_Ioo ⟨by linarith [Real.pi_pos], h90⟩
    have hct : 0 ≤ Real.cos (Real.arcsin (n1 * Real.sin theta_i / n2)) := by
      rw [Real.cos_arcsin]; positivity
    set ct := Real.cos (Real.arcsin (n1 * Real.sin theta_i / n2))
    have hD : 0 < n1 * Real.cos theta_i + n2 * ct := by
      have h1 : 0 < n1 * Real.cos theta_i := by positivity
      nlinarith
    refine ⟨rfl, by rw [← ht], ?_⟩
    have hDne : n1 * Real.cos theta_i + n2 * ct ≠ 0 := ne_of_gt hD
    have hcine : n1 * Real.cos theta_i ≠ 0 := by positivity
    field_simp
    ring
  · rw [reflectionPhysics_tir_eq (not_le.mp hs)] at href
    exact absurd href (by simp)

/-- Witness for C2 at `n1 = n2 = 1`, `theta_i = 0` (normal incidence between
identical media: `r_te = 0`, `t_te = 1`, `R_te = 0`, `T_te = 1`). -/
theorem C2_te_energy_conservation_witness :
    (0:ℝ) < 1 ∧ (0:ℝ) ≤ 0 ∧ (0:ℝ) < π / 2 ∧
    reflectionPhysics 1 1 0 = .refraction (degrees 0) 0 ⟨0, 1, 0, 1, 0, 1⟩ ∧
    (FresnelOut.mk 0 1 0 1 0 1).R_te + (FresnelOut.mk 0 1 0 1 0 1).T_te = 1 := by
  have hpi : (0:ℝ) < π / 2 := by positivity
  have href : reflectionPhysics 1 1 0 = .refraction (degrees 0) 0 ⟨0, 1, 0, 1, 0, 1⟩ := by
    have h1 : (1:ℝ) * Real.sin 0 / 1 = 0 := by simp
    rw [reflectionPhysics_refraction_eq (by rw [h1]; norm_num)]
    rw [h1]
    norm_num [Real.arcsin_zero, Real.cos_zero]
  exact ⟨one_pos, le_rfl, hpi, href,
    (C2_te_energy_conservation 1 1 0 one_pos one_pos le_rfl hpi (degrees 0) 0
      ⟨0, 1, 0, 1, 0, 1⟩ href).2.2⟩

/-- Claim C9: at exactly the critical angle (`n1*sin(theta_i)/n2 = 1`) the
code takes the refraction branch (the condition is `sin_theta_t <= 1.0`), so
`total_internal_reflection` is reported `false`, the transmitted angle is
`90°` (`π/2` rad), and since `cos(theta_t) = 0` the reported coefficients
satisfy `r_te = 1`, `R_te = 1`, `T_te = 0`. -/
theorem C9_critical_angle_branch (n1 n2 theta_i : ℝ) (hn1 : 0 < n1) (hn2 : 0 < n2)
    (h0 : 0 ≤ theta_i) (h90 : theta_i < π / 2)
    (hc : n1 * Real.sin theta_i / n2 = 1) :
    ∃ f : FresnelOut,
      reflectionPhysics n1 n2 theta_i = .refraction 90 (π / 2) f ∧
      (reflectionPhysics n1 n2 theta_i).total_internal_reflection = false ∧
      f.r_te = 1 ∧ f.R_te = 1 ∧ f.T_te = 0 := by
  have hci : 0 < Real.cos theta_i :=
    Real.cos_pos_of_mem_Ioo ⟨by linarith [Real.pi_pos], h90⟩
  have heq := @reflectionPhysics_refraction_eq n1 n2 theta_i (by rw [hc])
  rw [hc, Real.arcsin_one, Real.cos_pi_div_two] at heq
  have hdeg : degrees (π / 2) = 90 := by
    unfold degrees
    field_simp
    ring
  rw [hdeg] at heq
  refine ⟨_, heq, by rw [heq]; rfl, ?_, ?_, ?_⟩
  · show (n1 * Real.cos theta_i - n2 * 0) / (n1 * Real.cos theta_i + n2 * 0) = 1
    rw [mul_zero, sub_zero, add_zero]
    field_simp
  · show ((n1 * Real.cos theta_i - n2 * 0) / (n1 * Real.cos theta_i + n2 * 0)) ^ 2 = 1
    rw [mul_zero, sub_zero, add_zero]
    rw [div_self (by positivity)]
    norm_num
  · show (n2 * 0) / (n1 * Real.cos theta_i) *
      ((2 * n1 * Real.cos theta_i) / (n1 * Real.cos theta_i + n2 * 0)) ^ 2 = 0
    rw [mul_zero, zero_div, zero_mul]

/-- Witness for C9 at `n1 = 2`, `n2 = 1`, `theta_i = π/6` (30°):
`n1*sin(theta_i)/n2 = 2·(1/2)/1 = 1`. -/
theorem C9_critical_angle_branch_witness :
    (0:ℝ) < 2 ∧ (0:ℝ) < 1 ∧ (0:ℝ) ≤ π / 6 ∧ π / 6 < π / 2 ∧
    2 * Real.sin (π / 6) / 1 = 1 ∧
    (∃ f : FresnelOut,
      reflectionPhysics 2 1 (π / 6) = .refraction 90 (π / 2) f ∧
      (reflectionPhysics 2 1 (π / 6)).total_internal_reflection = false ∧
      f.r_te = 1 ∧ f.R_te = 1 ∧ f.T_te = 0) := by
  have hsin : 2 * Real.sin (π / 6) / 1 = 1 := by
    rw [Real.sin_pi_div_six]; norm_num
  refine ⟨by norm_num, by norm_num, by positivity, ?_, hsin, ?_⟩
  · have := Real.pi_pos
    linarith
  · exact C9_critical_angle_branch 2 1 (π / 6) (by norm_num) (by norm_num)
      (by positivity) (by have := Real.pi_pos; linarith) hsin

/-- Claim C3: for `|v| < c` the Doppler configuration reports the
relativistic value `f * sqrt((1 + β)/(1 - β))` with `β = v/c`; the separate
approaching (`v > 0`) and receding (`v <= 0`) branches both compute this one
closed form (for `v <= 0` the code writes it as
`f * sqrt((1 - |β|)/(1 + |β|))`, which equals it since `|β| = -β`). -/
theorem C3_doppler_closed_form (freq v : ℝ) (hv : |v| < SPEED_OF_LIGHT) :
    dopplerPhysics freq v =
      .ok v (v / SPEED_OF_LIGHT)
        (freq * Real.sqrt ((1 + v / SPEED_OF_LIGHT) / (1 - v / SPEED_OF_LIGHT)))
        (freq * Real.sqrt ((1 + v / SPEED_OF_LIGHT) / (1 - v / SPEED_OF_LIGHT)) - freq)
        ((freq * Real.sqrt ((1 + v / SPEED_OF_LIGHT) / (1 - v / SPEED_OF_LIGHT)) - freq)
          / freq) := by
  have hc : (0:ℝ) < SPEED_OF_LIGHT := by norm_num [SPEED_OF_LIGHT]
  have hb : |v / SPEED_OF_LIGHT| < 1 := by
    rw [abs_div, abs_of_pos hc]
    rwa [div_lt_one hc]
  unfold dopplerPhysics
  rw [if_pos hb]
  by_cases hv0 : 0 < v
  · rw [if_pos hv0]
  · rw [if_neg hv0]
    have hbn : v / SPEED_OF_LIGHT ≤ 0 :=
      div_nonpos_of_nonpos_of_nonneg (not_lt.mp hv0) hc.le
    rw [abs_of_nonpos hbn, sub_neg_eq_add, ← sub_eq_add_neg]

/-- Witness for C3 at `freq = 1`, `v = 0` (receding branch, `β = 0`). -/
theorem C3_doppler_closed_form_witness :
    |(0:ℝ)| < SPEED_OF_LIGHT ∧
    dopplerPhysics 1 0 =
      .ok 0 (0 / SPEED_OF_LIGHT)
        (1 * Real.sqrt ((1 + 0 / SPEED_OF_LIGHT) / (1 - 0 / SPEED_OF_LIGHT)))
        (1 * Real.sqrt ((1 + 0 / SPEED_OF_LIGHT) / (1 - 0 / SPEED_OF_LIGHT)) - 1)
        ((1 * Real.sqrt ((1 + 0 / SPEED_OF_LIGHT) / (1 - 0 / SPEED_OF_LIGHT)) - 1) / 1) :=
  ⟨by norm_num [SPEED_OF_LIGHT],
    C3_doppler_closed_form 1 0 (by norm_num [SPEED_OF_LIGHT])⟩

/-- Short-dipole branch of `calculate_radiation_resistance`. -/
lemma radiation_resistance_short {l lam : ℝ} (h : l / lam ≤ 1 / 10) :
    calculate_radiation_resistance l lam = 20 * (π * (l / lam)) ^ 2 := by
  simp only [calculate_radiation_resistance, if_pos h]

/-- Half-wave branch of `calculate_radiation_resistance`. -/
lemma radiation_resistance_halfwave {l lam : ℝ} (h1 : ¬ l / lam ≤ 1 / 10)
    (h2 : |l / lam - 5 / 10| < 1 / 100) :
    calculate_radiation_resistance l lam = 7313 / 100 := by
  simp only [calculate_radiation_resistance, if_neg h1, if_pos h2]

/-- General ("approximate") branch of `calculate_radiation_resistance`. -/
lemma radiation_resistance_general {l lam : ℝ} (h1 : ¬ l / lam ≤ 1 / 10)
    (h2 : ¬ |l / lam - 5 / 10| < 1 / 100) :
    calculate_radiation_resistance l lam = 80 * (π * (l / lam)) ^ 2 := by
  simp only [calculate_radiation_resistance, if_neg h1, if_neg h2]

/-- Claim C10: `calculate_radiation_resistance` is discontinuous at
`l/lambda = 0.1`: at `0.1` it returns `20*(0.1π)² ≈ 1.97` ohms, and for
every `l/lambda` in `(0.1, 0.49)` it returns `80*(π·l/λ)²`, which exceeds
four times that value, so arbitrarily close inputs give results apart by
more than a factor of 4. -/
theorem C10_radiation_resistance_jump (x : ℝ) (h1 : 1 / 10 < x) (h2 : x < 49 / 100) :
    calculate_radiation_resistance (1 / 10) 1 = 20 * (π * (1 / 10)) ^ 2 ∧
    calculate_radiation_resistance x 1 = 80 * (π * x) ^ 2 ∧
    4 * calculate_radiation_resistance (1 / 10) 1 < calculate_radiation_resistance x 1 := by
  have ha : calculate_radiation_resistance (1 / 10) 1 = 20 * (π * (1 / 10)) ^ 2 := by
    rw [radiation_resistance_short (by norm_num)]
    norm_num
  have hb : calculate_radiation_resistance x 1 = 80 * (π * x) ^ 2 := by
    rw [radiation_resistance_general (by rw [div_one]; exact not_le.mpr h1) ?_]
    · rw [div_one]
    · rw [div_one, abs_sub_lt_iff]
      intro hcon
      linarith [hcon.2]
  refine ⟨ha, hb, ?_⟩
  rw [ha, hb]
  have hπ : 0 < π := Real.pi_pos
  nlinarith [mul_pos hπ hπ, sq_nonneg (π * x - π / 10)]

/-- Witness for C10 at `x = 0.2`. -/
theorem C10_radiation_resistance_jump_witness :
    (1:ℝ) / 10 < 1 / 5 ∧ (1:ℝ) / 5 < 49 / 100 ∧
    (calculate_radiation_resistance (1 / 10) 1 = 20 * (π * (1 / 10)) ^ 2 ∧
     calculate_radiation_resistance (1 / 5) 1 = 80 * (π * (1 / 5)) ^ 2 ∧
     4 * calculate_radiation_resistance (1 / 10) 1 <
       calculate_radiation_resistance (1 / 5) 1) :=
  ⟨by norm_num, by norm_num,
    C10_radiation_resistance_jump (1 / 5) (by norm_num) (by norm_num)⟩

/-- Unfolding of the dipole branch of `generate_configuration`: the dipole
length in metres is `data['dipole_length'] * wavelength` and the radiation
resistance is `calculate_radiation_resistance(dipole_length, wavelength)`. -/
lemma generateConfiguration_dipole (data : Request) (hph : data.phenomenon = "dipole") :
    generateConfiguration data = .ok
      { version := "1.0", phenomenon := data.phenomenon
        wave :=
          { frequency := data.frequency, amplitude := data.amplitude
            wavelength := SPEED_OF_LIGHT / data.frequency
            period := 1 / data.frequency
            angular_frequency := 2 * π * data.frequency
            wave_number := 2 * π / (SPEED_OF_LIGHT / data.frequency) }
        constants :=
          { speed_of_light := SPEED_OF_LIGHT, vacuum_permittivity := VACUUM_PERMITTIVITY
            vacuum_permeability := VACUUM_PERMEABILITY, vacuum_impedance := VACUUM_IMPEDANCE }
        extra := .dipole
          { length := data.dipole_length * (SPEED_OF_LIGHT / data.frequency)
            length_wavelengths := data.dipole_length
            current_distribution := data.current_dist
            radiation_resistance := calculate_radiation_resistance
              (data.dipole_length * (SPEED_OF_LIGHT / data.frequency))
              (SPEED_OF_LIGHT / data.frequency) } } := by
  simp only [generateConfiguration, hph, WaveParameters.wavelength, WaveParameters.period,
    WaveParameters.angular_frequency, WaveParameters.wave_number]
  norm_num [pure, Except.pure]
  rw [if_neg (by decide : ¬("dipole" = "reflection")),
    if_neg (by decide : ¬("dipole" = "doppler"))]

/-- Counterexample to C5: for a full-wave dipole (`l = lambda`, so
`l/lambda = 1`, outside the short and half-wave branches) the code returns
`80·π² ≈ 789.6` ohms, far above the textbook full-wave value of about
199 ohms — the general branch does not match the textbook radiation
resistance. -/
theorem C5_full_wave_not_textbook :
    calculate_radiation_resistance 1 1 = 80 * π ^ 2 ∧
    fullWaveDipoleTextbookResistance < calculate_radiation_resistance 1 1 ∧
    calculate_radiation_resistance 1 1 ≠ fullWaveDipoleTextbookResistance := by
  have h : calculate_radiation_resistance 1 1 = 80 * π ^ 2 := by
    rw [radiation_resistance_general (by norm_num) (by rw [abs_sub_lt_iff]; norm_num)]
    norm_num
  have hlt : fullWaveDipoleTextbookResistance < 80 * π ^ 2 := by
    unfold fullWaveDipoleTextbookResistance
    nlinarith [Real.pi_gt_three]
  exact ⟨h, by rw [h]; exact hlt, by rw [h]; exact hlt.ne'⟩

/-- Claim C5 as amended: for a dipole request the reported
`radiation_resistance` is `calculate_radiation_resistance(l, lambda)` with
`l = dipole_length·lambda`, which equals the textbook short-dipole value
`20·(π·l/λ)²` when `l/λ ≤ 0.1` and the textbook half-wave value `73.13` when
`|l/λ - 0.5| < 0.01`; for all other lengths it is the uniform-current
approximation `80·(π·l/λ)²` (which does not match the textbook resistance,
see the full-wave counterexample). -/
theorem C5_dipole_resistance_amended (data : Request) (hph : data.phenomenon = "dipole")
    (hf : 0 < data.frequency) :
    generateConfiguration data = .ok
      { version := "1.0", phenomenon := data.phenomenon
        wave :=
          { frequency := data.frequency, amplitude := data.amplitude
            wavelength := SPEED_OF_LIGHT / data.frequency
            period := 1 / data.frequency
            angular_frequency := 2 * π * data.frequency
            wave_number := 2 * π / (SPEED_OF_LIGHT / data.frequency) }
        constants :=
          { speed_of_light := SPEED_OF_LIGHT, vacuum_permittivity := VACUUM_PERMITTIVITY
            vacuum_permeability := VACUUM_PERMEABILITY, vacuum_impedance := VACUUM_IMPEDANCE }
        extra := .dipole
          { length := data.dipole_length * (SPEED_OF_LIGHT / data.frequency)
            length_wavelengths := data.dipole_length
            current_distribution := data.current_dist
            radiation_resistance := calculate_radiation_resistance
              (data.dipole_length * (SPEED_OF_LIGHT / data.frequency))
              (SPEED_OF_LIGHT / data.frequency) } } ∧
    calculate_radiation_resistance (data.dipole_length * (SPEED_OF_LIGHT / data.frequency))
        (SPEED_OF_LIGHT / data.frequency) =
      (if data.dipole_length ≤ 1 / 10 then 20 * (π * data.dipole_length) ^ 2
       else if |data.dipole_length - 5 / 10| < 1 / 100 then 7313 / 100
       else 80 * (π * data.dipole_length) ^ 2) := by
  refine ⟨generateConfiguration_dipole data hph, ?_⟩
  have hlam : SPEED_OF_LIGHT / data.frequency ≠ 0 := by
    have : (0:ℝ) < SPEED_OF_LIGHT := by norm_num [SPEED_OF_LIGHT]
    positivity
  have hcancel : data.dipole_length * (SPEED_OF_LIGHT / data.frequency) /
      (SPEED_OF_LIGHT / data.frequency) = data.dipole_length :=
    mul_div_cancel_right₀ data.dipole_length hlam
  simp only [calculate_radiation_resistance, hcancel]

/-- Witness for the amended C5 at a half-wave dipole request
(`frequency = c`, so `lambda = 1`; `dipole_length = 0.5`). -/
theorem C5_dipole_resistance_amended_witness :
    ({ phenomenon := "dipole", frequency := SPEED_OF_LIGHT, amplitude := 1, angle := 0
       medium1 := "Air", medium2 := "Glass", velocity := 0, dipole_length := 1 / 2
       current_dist := "sinusoidal", guide_width := 1, guide_height := 1
       mode := "TE10", guide_type := "rectangular" } : Request).phenomenon = "dipole" ∧
    (0:ℝ) < SPEED_OF_LIGHT ∧
    calculate_radiation_resistance ((1 / 2) * (SPEED_OF_LIGHT / SPEED_OF_LIGHT))
        (SPEED_OF_LIGHT / SPEED_OF_LIGHT) =
      (if (1:ℝ) / 2 ≤ 1 / 10 then 20 * (π * (1 / 2)) ^ 2
       else if |(1:ℝ) / 2 - 5 / 10| < 1 / 100 then 7313 / 100
       else 80 * (π * (1 / 2)) ^ 2) :=
  ⟨rfl, by norm_num [SPEED_OF_LIGHT],
    (C5_dipole_resistance_amended
      { phenomenon := "dipole", frequency := SPEED_OF_LIGHT, amplitude := 1, angle := 0
        medium1 := "Air", medium2 := "Glass", velocity := 0, dipole_length := 1 / 2
        current_dist := "sinusoidal", guide_width := 1, guide_height := 1
        mode := "TE10", guide_type := "rectangular" }
      rfl (by norm_num [SPEED_OF_LIGHT])).2⟩

/-- Claim C4: for a waveguide request whose mode string has the form
`TEmn`/`TMmn` with single-digit indices, the reported cutoff frequency is
`fc = c/(2π)·sqrt((mπ/a)² + (nπ/b)²)`; the configuration describes a
propagating mode (with propagation constant
`βg = sqrt((ω/c)² - (2πfc/c)²)`, guide wavelength `2π/βg`, phase velocity
`ω/βg`, group velocity `c²/vp` and the waveguide impedance) exactly when the
request frequency is strictly above `fc`, and an evanescent mode with
attenuation constant `sqrt((2πfc/c)² - (ω/c)²)` otherwise
(here `ω = 2π·freq`). -/
theorem C4_waveguide_cutoff_dispersion (freq amp a b : ℝ) (g mode : String)
    (t1 t2 c1 c2 : Char) (hd1 : c1.isDigit = true) (hd2 : c2.isDigit = true)
    (hmt : String.mk [t1, t2] = "TE" ∨ String.mk [t1, t2] = "TM")
    (hmode : mode.toList = [t1, t2, c1, c2])
    (m n : ℕ) (hm : m = c1.toNat - 48) (hn : n = c2.toNat - 48)
    (fc beta_g : ℝ)
    (hfc : fc = SPEED_OF_LIGHT / (2 * π) *
      Real.sqrt ((m * π / a) ^ 2 + (n * π / b) ^ 2))
    (hbg : beta_g = Real.sqrt ((2 * π * freq / SPEED_OF_LIGHT) ^ 2 -
      (2 * π * fc / SPEED_OF_LIGHT) ^ 2)) :
    waveguidePhysics ⟨freq, amp⟩ g a b mode = .ok
      (if fc < freq then
        .propagating g a b mode (String.mk [t1, t2]) m n fc (SPEED_OF_LIGHT / fc)
          beta_g (2 * π / beta_g) (2 * π * freq / beta_g)
          (SPEED_OF_LIGHT ^ 2 / (2 * π * freq / beta_g))
          (calculate_waveguide_impedance (String.mk [t1, t2]) freq fc)
      else
        .evanescent g a b mode fc
          (Real.sqrt ((2 * π * fc / SPEED_OF_LIGHT) ^ 2 -
            (2 * π * freq / SPEED_OF_LIGHT) ^ 2))) ∧
    (∀ w, waveguidePhysics ⟨freq, amp⟩ g a b mode = .ok w →
      (w.isPropagating = true ↔ fc < freq)) := by
  subst hm hn hfc hbg
  have htake : mode.toList.take 2 = [t1, t2] := by rw [hmode]; rfl
  have hg2 : mode.toList.get? 2 = some c1 := by rw [hmode]; rfl
  have hg3 : mode.toList.get? 3 = some c2 := by rw [hmode]; rfl
  have hp1 : charToInt (some c1) = .ok (c1.toNat - 48) := by simp [charToInt, hd1]
  have hp2 : charToInt (some c2) = .ok (c2.toNat - 48) := by simp [charToInt, hd2]
  constructor
  · unfold waveguidePhysics
    rw [htake, hg2, hg3, hp1, hp2]
    simp only [Bind.bind, Except.bind, WaveParameters.angular_frequency, pure, Except.pure]
    split_ifs <;> rfl
  · intro w hw
    unfold waveguidePhysics at hw
    rw [htake, hg2, hg3, hp1, hp2] at hw
    simp only [Bind.bind, Except.bind, WaveParameters.angular_frequency, pure,
      Except.pure] at hw
    split_ifs at hw with h
    · injection hw with hw
      subst hw
      simp [WaveguidePhysics.isPropagating, h]
    · injection hw with hw
      subst hw
      simp [WaveguidePhysics.isPropagating, h]

/-- Witness for C4 at `mode = "TE10"`, `a = b = 1` m, `frequency = 3` Hz
(far below cutoff: the evanescent branch of the `if` applies). -/
theorem C4_waveguide_cutoff_dispersion_witness :
    Char.isDigit '1' = true ∧ String.toList "TE10" = ['T', 'E', '1', '0'] ∧
    waveguidePhysics ⟨3, 1⟩ "rectangular" 1 1 "TE10" = .ok
      (if SPEED_OF_LIGHT / (2 * π) *
          Real.sqrt ((((1:ℕ):ℝ) * π / 1) ^ 2 + (((0:ℕ):ℝ) * π / 1) ^ 2) < 3 then
        .propagating "rectangular" 1 1 "TE10" (String.mk ['T', 'E']) 1 0
          (SPEED_OF_LIGHT / (2 * π) *
            Real.sqrt ((((1:ℕ):ℝ) * π / 1) ^ 2 + (((0:ℕ):ℝ) * π / 1) ^ 2))
          (SPEED_OF_LIGHT / (SPEED_OF_LIGHT / (2 * π) *
            Real.sqrt ((((1:ℕ):ℝ) * π / 1) ^ 2 + (((0:ℕ):ℝ) * π / 1) ^ 2)))
          (Real.sqrt ((2 * π * 3 / SPEED_OF_LIGHT) ^ 2 -
            (2 * π * (SPEED_OF_LIGHT / (2 * π) *
              Real.sqrt ((((1:ℕ):ℝ) * π / 1) ^ 2 + (((0:ℕ):ℝ) * π / 1) ^ 2)) /
              SPEED_OF_LIGHT) ^ 2))
          (2 * π / Real.sqrt ((2 * π * 3 / SPEED_OF_LIGHT) ^ 2 -
            (2 * π * (SPEED_OF_LIGHT / (2 * π) *
              Real.sqrt ((((1:ℕ):ℝ) * π / 1) ^ 2 + (((0:ℕ):ℝ) * π / 1) ^ 2)) /
              SPEED_OF_LIGHT) ^ 2))
          (2 * π * 3 / Real.sqrt ((2 * π * 3 / SPEED_OF_LIGHT) ^ 2 -
            (2 * π * (SPEED_OF_LIGHT / (2 * π) *
              Real.sqrt ((((1:ℕ):ℝ) * π / 1) ^ 2 + (((0:ℕ):ℝ) * π / 1) ^ 2)) /
              SPEED_OF_LIGHT) ^ 2))
          (SPEED_OF_LIGHT ^ 2 / (2 * π * 3 /
            Real.sqrt ((2 * π * 3 / SPEED_OF_LIGHT) ^ 2 -
            (2 * π * (SPEED_OF_LIGHT / (2 * π) *
              Real.sqrt ((((1:ℕ):ℝ) * π / 1) ^ 2 + (((0:ℕ):ℝ) * π / 1) ^ 2)) /
              SPEED_OF_LIGHT) ^ 2)))
          (calculate_waveguide_impedance (String.mk ['T', 'E']) 3
            (SPEED_OF_LIGHT / (2 * π) *
              Real.sqrt ((((1:ℕ):ℝ) * π / 1) ^ 2 + (((0:ℕ):ℝ) * π / 1) ^ 2)))
      else
        .evanescent "rectangular" 1 1 "TE10"
          (SPEED_OF_LIGHT / (2 * π) *
            Real.sqrt ((((1:ℕ):ℝ) * π / 1) ^ 2 + (((0:ℕ):ℝ) * π / 1) ^ 2))
          (Real.sqrt ((2 * π * (SPEED_OF_LIGHT / (2 * π) *
            Real.sqrt ((((1:ℕ):ℝ) * π / 1) ^ 2 + (((0:ℕ):ℝ) * π / 1) ^ 2)) /
            SPEED_OF_LIGHT) ^ 2 - (2 * π * 3 / SPEED_OF_LIGHT) ^ 2))) :=
  ⟨rfl, rfl,
    (C4_waveguide_cutoff_dispersion 3 1 1 1 "rectangular" "TE10" 'T' 'E' '1' '0'
      rfl rfl (Or.inl rfl) rfl 1 0 (by decide) (by decide) _ _ rfl rfl).1⟩

/-- The `materials` dictionary fails (raises `KeyError`) exactly outside its
four keys. -/
lemma materials_eq_none_iff (key : String) :
    materials key = none ↔ key ∉ (["Air", "Water", "Glass", "Diamond"] : List String) := by
  unfold materials
  split_ifs with h1 h2 h3 h4 <;> simp_all

/-- Reflection branch: an unknown `medium1` raises `KeyError` first. -/
lemma generateConfiguration_keyError_medium1 (data : Request)
    (hph : data.phenomenon = "reflection") (h1 : materials data.medium1 = none) :
    generateConfiguration data = .error (.keyError data.medium1) := by
  unfold generateConfiguration
  rw [hph, if_pos rfl, h1]

/-- Reflection branch: with a known `medium1`, an unknown `medium2` raises
`KeyError`. -/
lemma generateConfiguration_keyError_medium2 (data : Request)
    (hph : data.phenomenon = "reflection") (med1 : MediumProperties)
    (h1 : materials data.medium1 = some med1) (h2 : materials data.medium2 = none) :
    generateConfiguration data = .error (.keyError data.medium2) := by
  unfold generateConfiguration
  rw [hph, if_pos rfl, h1, h2]

/-- For a phenomenon with no dedicated branch in `generate_configuration`
(not reflection/doppler/dipole/waveguide), the base configuration is
returned and no exception is raised. -/
lemma generateConfiguration_ok_of_not_special (data : Request)
    (h1 : data.phenomenon ≠ "reflection") (h2 : data.phenomenon ≠ "doppler")
    (h3 : data.phenomenon ≠ "dipole") (h4 : data.phenomenon ≠ "waveguide") :
    ∃ cfg, generateConfiguration data = .ok cfg ∧ cfg.extra = .base := by
  unfold generateConfiguration
  rw [if_neg h1, if_neg h2, if_neg h3, if_neg h4]
  exact ⟨_, rfl, rfl⟩

/-- Any exception raised by `generate_configuration` is caught by the
`try/except` of `visualize` and reported as `success = false`. -/
lemma visualize_success_false_of_gen_error (data : Request) (e : EmError)
    (hgen : generateConfiguration data = .error e) :
    (visualize data).success = false := by
  unfold visualize visualizeBody
  by_cases h1 : data.frequency ≤ 0
  · rw [if_pos h1]
  · rw [if_neg h1]
    by_cases h2 : data.amplitude ≤ 0
    · rw [if_pos h2]
    · rw [if_neg h2]
      rw [hgen]
      rfl

/-- Claim C8: a reflection request naming a medium outside exactly
`Air`, `Water`, `Glass`, `Diamond` makes `generate_configuration` raise a
`KeyError` (there is no fallback medium), so `/visualize` answers
`success = false`. -/
theorem C8_unknown_medium_keyerror (data : Request)
    (hph : data.phenomenon = "reflection")
    (hbad : data.medium1 ∉ (["Air", "Water", "Glass", "Diamond"] : List String) ∨
            data.medium2 ∉ (["Air", "Water", "Glass", "Diamond"] : List String)) :
    (generateConfiguration data = .error (.keyError data.medium1) ∨
     generateConfiguration data = .error (.keyError data.medium2)) ∧
    (visualize data).success = false := by
  by_cases h1 : materials data.medium1 = none
  · have hgen := generateConfiguration_keyError_medium1 data hph h1
    exact ⟨Or.inl hgen, visualize_success_false_of_gen_error data _ hgen⟩
  · obtain ⟨med1, hmed1⟩ := Option.ne_none_iff_exists'.mp h1
    have h2 : materials data.medium2 = none := by
      rcases hbad with hb | hb
      · exact absurd ((materials_eq_none_iff data.medium1).mpr hb) h1
      · exact (materials_eq_none_iff data.medium2).mpr hb
    have hgen := generateConfiguration_keyError_medium2 data hph med1 hmed1 h2
    exact ⟨Or.inr hgen, visualize_success_false_of_gen_error data _ hgen⟩

/-- Witness for C8 at a reflection request with `medium1 = "Vacuum"`. -/
theorem C8_unknown_medium_keyerror_witness :
    ({ phenomenon := "reflection", frequency := 1, amplitude := 1, angle := 30
       medium1 := "Vacuum", medium2 := "Air", velocity := 0, dipole_length := 1 / 2
       current_dist := "uniform", guide_width := 1, guide_height := 1
       mode := "TE10", guide_type := "rectangular" } : Request).phenomenon =
      "reflection" ∧
    "Vacuum" ∉ (["Air", "Water", "Glass", "Diamond"] : List String) ∧
    (visualize
      { phenomenon := "reflection", frequency := 1, amplitude := 1, angle := 30
        medium1 := "Vacuum", medium2 := "Air", velocity := 0, dipole_length := 1 / 2
        current_dist := "uniform", guide_width := 1, guide_height := 1
        mode := "TE10", guide_type := "rectangular" }).success = false :=
  ⟨rfl, by decide,
    (C8_unknown_medium_keyerror
      { phenomenon := "reflection", frequency := 1, amplitude := 1, angle := 30
        medium1 := "Vacuum", medium2 := "Air", velocity := 0, dipole_length := 1 / 2
        current_dist := "uniform", guide_width := 1, guide_height := 1
        mode := "TE10", guide_type := "rectangular" }
      rfl (Or.inl (by decide))).2⟩

/-- Counterexample to C6: a request with BOTH `frequency <= 0` and
`amplitude <= 0` has `amplitude <= 0` but is answered with the frequency
error (the checks run in order), not `"Amplitude must be positive"` as the
claim's amplitude clause states. -/
theorem C6_amplitude_clause_counterexample :
    doubleBadRequest.amplitude ≤ 0 ∧
    visualize doubleBadRequest =
      { success := false, error := some "Frequency must be positive", config := none } ∧
    some "Frequency must be positive" ≠ some "Amplitude must be positive" := by
  refine ⟨by norm_num [doubleBadRequest], ?_, by decide⟩
  unfold visualize visualizeBody
  rw [if_pos (by norm_num [doubleBadRequest] : doubleBadRequest.frequency ≤ 0)]
  rfl

/-- Claim C6 as amended: failure is reported only through the single
`try/except` as an error string, with the checks applied in order:
`frequency <= 0` yields the frequency error; otherwise `amplitude <= 0`
yields the amplitude error; otherwise an unknown phenomenon yields the
`"Unknown phenomenon: ..."` error; and every response is either a success
or a `{success: false, error: <string>}` response — no exception escapes. -/
theorem C6_error_handling_amended (data : Request) :
    (data.frequency ≤ 0 →
      visualize data =
        { success := false, error := some "Frequency must be positive", config := none }) ∧
    (0 < data.frequency → data.amplitude ≤ 0 →
      visualize data =
        { success := false, error := some "Amplitude must be positive", config := none }) ∧
    (0 < data.frequency → 0 < data.amplitude → data.phenomenon ∉ knownPhenomena →
      visualize data =
        { success := false, error := some ("Unknown phenomenon: " ++ data.phenomenon)
          config := none }) ∧
    ((visualize data).success = true ∧ (visualize data).error = none ∨
     (visualize data).success = false ∧ (visualize data).error ≠ none) := by
  refine ⟨?_, ?_, ?_, ?_⟩
  · intro h1
    unfold visualize visualizeBody
    rw [if_pos h1]
    rfl
  · intro h1 h2
    unfold visualize visualizeBody
    rw [if_neg (not_le.mpr h1), if_pos h2]
    rfl
  · intro h1 h2 h3
    have hne : data.phenomenon ≠ "reflection" ∧ data.phenomenon ≠ "doppler" ∧
        data.phenomenon ≠ "dipole" ∧ data.phenomenon ≠ "waveguide" := by
      refine ⟨?_, ?_, ?_, ?_⟩ <;>
        (intro hc; exact h3 (by rw [hc]; simp [knownPhenomena]))
    obtain ⟨cfg, hcfg, -⟩ := generateConfiguration_ok_of_not_special data
      hne.1 hne.2.1 hne.2.2.1 hne.2.2.2
    unfold visualize visualizeBody
    rw [if_neg (not_le.mpr h1), if_neg (not_le.mpr h2), hcfg]
    show (match (if data.phenomenon ∈ knownPhenomena then _ else _ :
        Except EmError Config) with
      | .ok config => _ | .error e => _) = _
    rw [if_neg h3]
    rfl
  · unfold visualize
    cases hvb : visualizeBody data with
    | ok cfg => exact Or.inl ⟨rfl, rfl⟩
    | error e => exact Or.inr ⟨rfl, by simp⟩

/-- Witness for the amended C6 at a request with positive frequency and
amplitude and the unknown phenomenon `"magnetostatics"`. -/
theorem C6_error_handling_amended_witness :
    (0:ℝ) < 1 ∧ "magnetostatics" ∉ knownPhenomena ∧
    visualize
      { phenomenon := "magnetostatics", frequency := 1, amplitude := 1, angle := 0
        medium1 := "Air", medium2 := "Air", velocity := 0, dipole_length := 1 / 2
        current_dist := "uniform", guide_width := 1, guide_height := 1
        mode := "TE10", guide_type := "rectangular" } =
      { success := false, error := some ("Unknown phenomenon: " ++ "magnetostatics")
        config := none } :=
  ⟨one_pos, by decide,
    (C6_error_handling_amended
      { phenomenon := "magnetostatics", frequency := 1, amplitude := 1, angle := 0
        medium1 := "Air", medium2 := "Air", velocity := 0, dipole_length := 1 / 2
        current_dist := "uniform", guide_width := 1, guide_height := 1
        mode := "TE10", guide_type := "rectangular" }).2.2.1
      one_pos one_pos (by decide)⟩

/-- Claim C7: `generate_configuration` is stateless and deterministic: equal
request data gives equal configurations, and the configuration computed for
a request in a batch does not depend on the requests processed before or
after it (there is no cross-request state). -/
theorem C7_stateless_deterministic :
    (∀ d1 d2 : Request, d1 = d2 → generateConfiguration d1 = generateConfiguration d2) ∧
    (∀ (pre post : List Request) (r : Request),
      runBatch (pre ++ r :: post) =
        runBatch pre ++ generateConfiguration r :: runBatch post) := by
  constructor
  · intro d1 d2 h
    rw [h]
  · intro pre post r
    simp [runBatch]

/-- Witness for C7 at a concrete doppler request. -/
theorem C7_stateless_deterministic_witness :
    generateConfiguration
        { phenomenon := "doppler", frequency := 1, amplitude := 1, angle := 0
          medium1 := "Air", medium2 := "Air", velocity := 10, dipole_length := 1 / 2
          current_dist := "uniform", guide_width := 1, guide_height := 1
          mode := "TE10", guide_type := "rectangular" } =
      generateConfiguration
        { phenomenon := "doppler", frequency := 1, amplitude := 1, angle := 0
          medium1 := "Air", medium2 := "Air", velocity := 10, dipole_length := 1 / 2
          current_dist := "uniform", guide_width := 1, guide_height := 1
          mode := "TE10", guide_type := "rectangular" } ∧
    runBatch ([] ++
        { phenomenon := "doppler", frequency := 1, amplitude := 1, angle := 0
          medium1 := "Air", medium2 := "Air", velocity := 10, dipole_length := 1 / 2
          current_dist := "uniform", guide_width := 1, guide_height := 1
          mode := "TE10", guide_type := "rectangular" } :: []) =
      runBatch [] ++ generateConfiguration
        { phenomenon := "doppler", frequency := 1, amplitude := 1, angle := 0
          medium1 := "Air", medium2 := "Air", velocity := 10, dipole_length := 1 / 2
          current_dist := "uniform", guide_width := 1, guide_height := 1
          mode := "TE10", guide_type := "rectangular" } :: runBatch [] :=
  ⟨C7_stateless_deterministic.1 _ _ rfl, C7_stateless_deterministic.2 [] [] _⟩

